import Mathlib

/-
Verification of the SSH transport plugin (aida/transport/plugins/ssh.py).

The development is a shallow embedding of the `SshTransport` class.  The
paramiko primitives (the SFTP sub-channel and the command channel) are out of
scope for the repository and are modelled as an oracle structure `Env`: each
primitive is a function from its arguments (including the emulated current
working directory, against which paramiko resolves relative paths) to an
`Except` result.  The transport state (`_is_open` flag and the paramiko
emulated working directory) is the structure `TState`; operations take the
state explicitly and, where the source mutates it, return the new state.

Command execution is modelled with an explicit trace: `_exec_command_internal`
and `exec_command_wait` return, besides their result, the ordered list of
channel interactions (`Event`) they performed, so that ordering properties
(drain stdout, then fetch the exit status, then drain stderr; half-close of
stdin) can be stated.  Opening the command channel and issuing the command are
modelled as always succeeding: the claims under study are all conditioned on
the command having been executed, and a channel-open failure in the source
aborts the call before any of the events of interest.  The `bufsize` argument
of the source has no observable effect in the model and is omitted.
-/

set_option autoImplicit false

deriving instance DecidableEq for Except

namespace AidaSsh

/-- Python exception values raised by the transport or by the modelled
paramiko primitives.  `ioError` carries the optional `errno` attribute read by
`getattr(e, "errno", None)` in the source, and the message. -/
inductive PyErr where
  | transportInternalError (msg : String)
  | ioError (errno : Option Int) (msg : String)
  | osError (msg : String)
  | valueError (msg : String)
  | attributeError (name : String)
  | keyError (name : String)
deriving DecidableEq, Repr

/-- The observable state of an `SshTransport` object: the `_is_open` flag and
the emulated current working directory of the paramiko SFTP session
(`None` until a `chdir`; set explicitly at `__enter__`). -/
structure TState where
  is_open : Bool
  cwd : Option String
deriving DecidableEq, Repr

/-- The result of paramiko `stat`/`lstat`: the six numeric attributes that the
transport copies, plus the extra fields a paramiko `SFTPAttributes` object
carries beyond them (modelled by `filename` and `longname`). -/
structure ParamikoAttrs where
  st_size : Int
  st_uid : Int
  st_gid : Int
  st_mode : Int
  st_atime : Int
  st_mtime : Int
  filename : String
  longname : String
deriving DecidableEq, Repr

/-- One interaction with the command channel, in the order performed by
`_exec_command_internal` / `exec_command_wait`. -/
inductive Event where
  | openSession
  | setCombineStderr (b : Bool)
  | execCommand (cmd : String)
  | stdinWrite (line : String)
  | stdinFlush
  | shutdownWrite
  | readStdout
  | recvExitStatus
  | readStderr
deriving DecidableEq, Repr

/-- A message sent to the transport logger (only the levels the claims
mention are modelled). -/
inductive LogMsg where
  | warnLog (msg : String)
  | errorLog (msg : String)
deriving DecidableEq, Repr

/-- The `stdin` argument of `exec_command_wait`: Python `None`, a string, or
an arbitrary object.  `objArg (some ls)` is an object whose `readlines()`
returns the lines `ls`; `objArg none` is an object with no `readlines`
attribute, on which the call raises `AttributeError`. -/
inductive StdinArg where
  | nullArg : StdinArg
  | strArg : String → StdinArg
  | objArg : Option (List String) → StdinArg
deriving DecidableEq, Repr

/-- The paramiko primitives consumed by the transport, as oracles.  Path
arguments are resolved by paramiko against the emulated working directory,
hence every path primitive also receives the current `cwd`.  The last three
fields describe the behaviour of the single remote command executed by
`exec_command_wait`: its exit status and the contents of its output and error
streams. -/
structure Env where
  sftpChdir : Option String → String → Except PyErr String
  sftpStatDot : Option String → Except PyErr Unit
  sftpStat : Option String → String → Except PyErr ParamikoAttrs
  sftpLstat : Option String → String → Except PyErr ParamikoAttrs
  sftpNormalize : Option String → String → Except PyErr String
  sftpMkdir : Option String → String → Except PyErr Unit
  sftpRmdir : Option String → String → Except PyErr Unit
  sftpRemove : Option String → String → Except PyErr Unit
  sftpListdir : Option String → String → Except PyErr (List String)
  sftpChmod : Option String → String → Int → Except PyErr Unit
  sftpPut : Option String → String → String → Except PyErr ParamikoAttrs
  sftpGet : Option String → String → String → Except PyErr Unit
  exitStatus : Int
  stdoutData : String
  stderrData : String

/-- The exception raised by the `sshclient` property when the transport has
not been opened. -/
def sshGuardErr : PyErr :=
  PyErr.transportInternalError
    "Error, ssh method called for SshTransport without opening the channel first"

/-- The exception raised by the `sftp` property when the transport has not
been opened. -/
def sftpGuardErr : PyErr :=
  PyErr.transportInternalError
    "Error, sftp method called for SshTransport without opening the channel first"

/-- A single-quote character, as a string. -/
def squote : String := String.mk [Char.ofNat 39]

/-- A double-quote character, as a string. -/
def dquote : String := String.mk [Char.ofNat 34]

/-- Replace every single quote by the sequence quote, double quote, quote,
double quote, quote (the bash-safe rewriting of an embedded single quote). -/
def replaceQuoteChars : List Char → List Char
  | [] => []
  | c :: rest =>
    if c = Char.ofNat 39 then
      Char.ofNat 39 :: Char.ofNat 34 :: Char.ofNat 39 :: Char.ofNat 34 :: Char.ofNat 39
        :: replaceQuoteChars rest
    else c :: replaceQuoteChars rest

/-- Modelled from the spec: `escape_for_bash` from `aida.common.utils`, which
is imported by the plugin but is not among the sources.  The spec describes it
as shell-escaping a string so that spaces and shell metacharacters are
tolerated; it is modelled as the standard bash single-quoting: wrap the string
in single quotes, rewriting every embedded single quote. -/
def escape_for_bash (s : String) : String :=
  String.mk (Char.ofNat 39 :: (replaceQuoteChars s.data ++ [Char.ofNat 39]))

/-- Python `stat.S_ISDIR`: the file-type bits of the mode equal the directory
file type. -/
def s_ISDIR (mode : Int) : Bool := Int.land mode 0o170000 == 0o040000

/-- Python `stat.S_ISREG`: the file-type bits of the mode equal the regular
file type. -/
def s_ISREG (mode : Int) : Bool := Int.land mode 0o170000 == 0o100000

/-- Python `os.path.isabs` for POSIX paths: the path starts with a slash. -/
def pyIsAbs (p : String) : Bool :=
  match p.data with
  | [] => false
  | c :: _ => c == Char.ofNat 47

/-- `getattr(e, "errno", None)`: the `errno` attribute of an exception, which
only `IOError` carries. -/
def pyErrno : PyErr → Option Int
  | PyErr.ioError n _ => n
  | _ => none

/-- The characters stripped by Python `str.strip()`. -/
def isPySpace (c : Char) : Bool :=
  (c == Char.ofNat 32) || (c == Char.ofNat 9) || (c == Char.ofNat 10)
    || (c == Char.ofNat 13) || (c == Char.ofNat 11) || (c == Char.ofNat 12)

/-- Python `str.strip()`: remove leading and trailing whitespace. -/
def pyStrip (s : String) : String :=
  String.mk (((s.data.dropWhile isPySpace).reverse.dropWhile isPySpace).reverse)

/-- Whether the character list `needle` occurs at the head of the second
list. -/
def charsStartWith : List Char → List Char → Bool
  | [], _ => true
  | _ :: _, [] => false
  | n :: ns, h :: t => (n == h) && charsStartWith ns t

/-- Whether the character list `needle` (first argument) occurs anywhere in
the second list. -/
def charsContain : List Char → List Char → Bool
  | needle, [] => needle.isEmpty
  | needle, h :: t => charsStartWith needle (h :: t) || charsContain needle t

/-- Whether `needle` occurs as a substring of `hay`. -/
def strContains (hay needle : String) : Bool :=
  charsContain needle.data hay.data

/-- `StringIO(s).readlines()`: split a string into lines, each keeping its
trailing newline character. -/
def splitLinesAux : List Char → List Char → List String
  | [], [] => []
  | [], acc => [String.mk acc.reverse]
  | c :: rest, acc =>
    if c = Char.ofNat 10 then
      String.mk (acc.reverse ++ [c]) :: splitLinesAux rest []
    else splitLinesAux rest (c :: acc)

/-- The lines written to the remote stdin for a string argument. -/
def splitLinesKeepNl (s : String) : List String := splitLinesAux s.data []

/-! ## FileAttribute (FixedFieldsAttributeDict) -/

/-- The `_valid_fields` tuple of the `FileAttribute` class. -/
def file_attribute_fields : List String :=
  ["st_size", "st_uid", "st_gid", "st_mode", "st_atime", "st_mtime"]

/-- Modelled from the spec: `FixedFieldsAttributeDict` from
`aida.common.extendeddicts`, which the plugin imports but is not among the
sources.  Per the spec it is a fixed-shape record: a dictionary that accepts
exactly the declared field names, and setting or reading any other name is an
error. -/
structure FixedDict where
  validFields : List String
  entries : List (String × Int)
deriving DecidableEq, Repr

/-- Assign a field of a `FixedDict`; an error for a name outside the declared
fields. -/
def fdSet (d : FixedDict) (key : String) (v : Int) : Except PyErr FixedDict :=
  if d.validFields.contains key then
    Except.ok { d with entries := (key, v) :: d.entries.filter (fun e => !(e.1 == key)) }
  else Except.error (PyErr.valueError ("Unknown field " ++ key))

/-- Read a field of a `FixedDict`; an error for a name outside the declared
fields, or for a declared field never assigned. -/
def fdGet (d : FixedDict) (key : String) : Except PyErr Int :=
  if d.validFields.contains key then
    match d.entries.lookup key with
    | some v => Except.ok v
    | none => Except.error (PyErr.keyError key)
  else Except.error (PyErr.valueError ("Unknown field " ++ key))

/-- `FileAttribute()`: an empty fixed-fields dictionary over the six
recognized stat fields. -/
def emptyFileAttribute : FixedDict :=
  { validFields := file_attribute_fields, entries := [] }

/-- `getattr(paramiko_attr, key)` restricted to the numeric attributes the
transport copies; any other name is an `AttributeError` (the extra paramiko
fields are never requested by the source loop). -/
def paramikoGetattrInt (pa : ParamikoAttrs) (key : String) : Except PyErr Int :=
  if key = "st_size" then Except.ok pa.st_size
  else if key = "st_uid" then Except.ok pa.st_uid
  else if key = "st_gid" then Except.ok pa.st_gid
  else if key = "st_mode" then Except.ok pa.st_mode
  else if key = "st_atime" then Except.ok pa.st_atime
  else if key = "st_mtime" then Except.ok pa.st_mtime
  else Except.error (PyErr.attributeError key)

/-- The copy loop of `get_attribute`: for each key of `_valid_fields`, read
the paramiko attribute and assign it into the aida dictionary. -/
def copyFields (pa : ParamikoAttrs) : List String → FixedDict → Except PyErr FixedDict
  | [], d => Except.ok d
  | k :: ks, d =>
    match paramikoGetattrInt pa k with
    | Except.error e => Except.error e
    | Except.ok v =>
      match fdSet d k v with
      | Except.error e => Except.error e
      | Except.ok d2 => copyFields pa ks d2

/-- The dictionary produced by `get_attribute` from a paramiko stat result:
exactly the six recognized fields, each copied from the primitive result. -/
def mkFileAttr (pa : ParamikoAttrs) : FixedDict :=
  { validFields := file_attribute_fields,
    entries := [("st_mtime", pa.st_mtime), ("st_atime", pa.st_atime),
                ("st_mode", pa.st_mode), ("st_gid", pa.st_gid),
                ("st_uid", pa.st_uid), ("st_size", pa.st_size)] }

/-! ## Filesystem operations -/

/-- `SshTransport.chdir`: `None` skips the paramiko chdir; otherwise paramiko
changes (and commits) the emulated working directory, validating only that the
target is a directory; afterwards the source stats `.` to check read
permission, without rolling back the committed directory on failure.  The
state is returned together with the outcome, since the mutation survives a
raised exception. -/
def chdir (env : Env) (st : TState) (path : Option String) :
    TState × Except PyErr Unit :=
  match path with
  | some p =>
    if st.is_open then
      match env.sftpChdir st.cwd p with
      | Except.error e => (st, Except.error e)
      | Except.ok newcwd =>
        let st1 : TState := { st with cwd := some newcwd }
        match env.sftpStatDot st1.cwd with
        | Except.ok _ => (st1, Except.ok ())
        | Except.error e => (st1, Except.error e)
    else (st, Except.error sftpGuardErr)
  | none =>
    if st.is_open then
      match env.sftpStatDot st.cwd with
      | Except.ok _ => (st, Except.ok ())
      | Except.error e => (st, Except.error e)
    else (st, Except.error sftpGuardErr)

/-- `SshTransport.normalize`. -/
def normalize (env : Env) (st : TState) (path : String) : Except PyErr String :=
  if st.is_open then env.sftpNormalize st.cwd path else Except.error sftpGuardErr

/-- `SshTransport.getcwd`. -/
def getcwd (st : TState) : Except PyErr (Option String) :=
  if st.is_open then Except.ok st.cwd else Except.error sftpGuardErr

/-- `SshTransport.mkdir`: forward to the paramiko mkdir, rewrapping every
`IOError` as `OSError(e.message)`. -/
def mkdir (env : Env) (st : TState) (path : String) : Except PyErr Unit :=
  if st.is_open then
    match env.sftpMkdir st.cwd path with
    | Except.ok _ => Except.ok ()
    | Except.error (PyErr.ioError _ msg) => Except.error (PyErr.osError msg)
    | Except.error e => Except.error e
  else Except.error sftpGuardErr

/-- `SshTransport.rmdir`. -/
def rmdir (env : Env) (st : TState) (path : String) : Except PyErr Unit :=
  if st.is_open then env.sftpRmdir st.cwd path else Except.error sftpGuardErr

/-- `SshTransport.remove`. -/
def remove (env : Env) (st : TState) (path : String) : Except PyErr Unit :=
  if st.is_open then env.sftpRemove st.cwd path else Except.error sftpGuardErr

/-- `SshTransport.listdir`. -/
def listdir (env : Env) (st : TState) (path : String) : Except PyErr (List String) :=
  if st.is_open then env.sftpListdir st.cwd path else Except.error sftpGuardErr

/-- `SshTransport.isdir`: an empty path returns `False` immediately;
otherwise stat the path, map a failure with `errno == 2` to `False`, and
re-raise any other failure. -/
def isdir (env : Env) (st : TState) (path : String) : Except PyErr Bool :=
  if path = "" then Except.ok false
  else if st.is_open then
    match env.sftpStat st.cwd path with
    | Except.ok a => Except.ok (s_ISDIR a.st_mode)
    | Except.error e =>
      if pyErrno e = some 2 then Except.ok false else Except.error e
  else Except.error sftpGuardErr

/-- The body of the `try` block of `isfile`: the debug-log line evaluates
`sftp.normalize(path)` (and `sftp.stat(path)`) while formatting its message,
then the return statement stats the path again; in the pure oracle model the
repeated stats coincide, so one `stat` is recorded after the `normalize`. -/
def isfileDebugAndStat (env : Env) (st : TState) (path : String) : Except PyErr Bool :=
  match env.sftpNormalize st.cwd path with
  | Except.error e => Except.error e
  | Except.ok _ =>
    match env.sftpStat st.cwd path with
    | Except.error e => Except.error e
    | Except.ok a => Except.ok (s_ISREG a.st_mode)

/-- `SshTransport.isfile`: an empty path returns `False` immediately;
otherwise stat the path (after the debug-log normalize), map a failure with
`errno == 2` to `False`, and re-raise any other failure. -/
def isfile (env : Env) (st : TState) (path : String) : Except PyErr Bool :=
  if path = "" then Except.ok false
  else if st.is_open then
    match isfileDebugAndStat env st path with
    | Except.ok b => Except.ok b
    | Except.error e =>
      if pyErrno e = some 2 then Except.ok false else Except.error e
  else Except.error sftpGuardErr

/-- `SshTransport.chmod`: an empty path raises `IOError` before the channel
guard is reached. -/
def chmod (env : Env) (st : TState) (path : String) (mode : Int) : Except PyErr Unit :=
  if path = "" then Except.error (PyErr.ioError none "Input path is an empty argument.")
  else if st.is_open then env.sftpChmod st.cwd path mode
  else Except.error sftpGuardErr

/-- `SshTransport.put`: a non-absolute local path raises `ValueError` before
the channel guard is reached. -/
def put (env : Env) (st : TState) (localpath remotepath : String) :
    Except PyErr ParamikoAttrs :=
  if pyIsAbs localpath then
    if st.is_open then env.sftpPut st.cwd localpath remotepath
    else Except.error sftpGuardErr
  else Except.error (PyErr.valueError "The localpath must be an absolute path")

/-- `SshTransport.get`: a non-absolute local path raises `ValueError` before
the channel guard is reached. -/
def get (env : Env) (st : TState) (remotepath localpath : String) : Except PyErr Unit :=
  if pyIsAbs localpath then
    if st.is_open then env.sftpGet st.cwd remotepath localpath
    else Except.error sftpGuardErr
  else Except.error (PyErr.valueError "The localpath must be an absolute path")

/-- `SshTransport.get_attribute`: lstat the path and copy each of the six
recognized fields from the paramiko result into a fresh `FileAttribute`. -/
def get_attribute (env : Env) (st : TState) (path : String) : Except PyErr FixedDict :=
  if st.is_open then
    match env.sftpLstat st.cwd path with
    | Except.error e => Except.error e
    | Except.ok pa => copyFields pa file_attribute_fields emptyFileAttribute
  else Except.error sftpGuardErr

/-! ## Command execution -/

/-- The command actually issued on the channel: when the emulated working
directory is set, the requested command prefixed by a `cd` into the
shell-escaped directory; otherwise the command itself, unmodified. -/
def composedCommand (st : TState) (command : String) : String :=
  match st.cwd with
  | some d => "cd " ++ escape_for_bash d ++ " && " ++ command
  | none => command

/-- `SshTransport._exec_command_internal` (source name with a leading
underscore): open a command channel via the `sshclient` guard, configure
stderr combining, and issue the composed command.  Returns the composed
command (standing for the stream handles) and the channel interactions
performed. -/
def execInternal (env : Env) (st : TState) (command : String) (combine_stderr : Bool) :
    Except PyErr String × List Event :=
  if st.is_open then
    (Except.ok (composedCommand st command),
     [Event.openSession, Event.setCombineStderr combine_stderr,
      Event.execCommand (composedCommand st command)])
  else (Except.error sshGuardErr, [])

/-- The stdin delivery step of `exec_command_wait`: `None` writes nothing, a
string is wrapped into a `StringIO` and its lines written, a file-like object
has its `readlines()` written; an object without `readlines` raises
`ValueError` with the source message (no line is written in that case, since
`readlines` itself is the failing call). -/
def stdinLines : StdinArg → Except PyErr (List String)
  | StdinArg.nullArg => Except.ok []
  | StdinArg.strArg s => Except.ok (splitLinesKeepNl s)
  | StdinArg.objArg none =>
    Except.error (PyErr.valueError "stdin can only be either a string of a file-like object!")
  | StdinArg.objArg (some ls) => Except.ok ls

/-- `SshTransport.exec_command_wait`: run `_exec_command_internal`, deliver
stdin, flush and half-close the write side, read stdout to exhaustion, fetch
the exit status (blocking), then read stderr to exhaustion; return the exit
status and both captured streams, together with the interaction trace. -/
def exec_command_wait (env : Env) (st : TState) (command : String)
    (stdin : StdinArg) (combine_stderr : Bool) :
    Except PyErr (Int × String × String) × List Event :=
  match execInternal env st command combine_stderr with
  | (Except.error e, tr) => (Except.error e, tr)
  | (Except.ok _, tr) =>
    match stdinLines stdin with
    | Except.error e => (Except.error e, tr)
    | Except.ok ls =>
      (Except.ok (env.exitStatus, env.stdoutData, env.stderrData),
       tr ++ ls.map Event.stdinWrite
          ++ [Event.stdinFlush, Event.shutdownWrite, Event.readStdout,
              Event.recvExitStatus, Event.readStderr])

/-- The remote copy command built by `copy`: `cp -r -f`, with `-L` appended
when dereferencing, followed by the shell-escaped source and destination. -/
def cpCommand (remotesource remotedestination : String) (dereference : Bool) : String :=
  "cp " ++ (if dereference then "-r -f -L" else "-r -f") ++ " "
    ++ escape_for_bash remotesource ++ " " ++ escape_for_bash remotedestination

/-- `SshTransport.copy`: reject empty paths with `ValueError`; run the remote
`cp` through `exec_command_wait`; on exit status zero succeed (logging a
warning when stderr is nonempty after stripping); on a non-zero exit status
log the status with both captured streams and raise `IOError` carrying the
exit status in its message. -/
def copy (env : Env) (st : TState) (remotesource remotedestination : String)
    (dereference : Bool) : Except PyErr Bool × List LogMsg :=
  if remotesource = "" then
    (Except.error (PyErr.valueError ("Input to copy() must be a non empty string. Found instead "
        ++ remotesource ++ " as remotesource")), [])
  else if remotedestination = "" then
    (Except.error (PyErr.valueError ("Input to copy() must be a non empty string. Found instead "
        ++ remotedestination ++ " as remotedestination")), [])
  else
    match (exec_command_wait env st (cpCommand remotesource remotedestination dereference)
             StdinArg.nullArg false).1 with
    | Except.error e => (Except.error e, [])
    | Except.ok (retval, stdoutS, stderrS) =>
      if retval = 0 then
        if pyStrip stderrS = "" then (Except.ok true, [])
        else (Except.ok true,
              [LogMsg.warnLog ("There was nonempty stderr in the cp command: " ++ stderrS)])
      else
        (Except.error (PyErr.ioError none
            ("Error while executing cp. Exit code: " ++ toString retval)),
         [LogMsg.errorLog ("Problem executing cp. Exit code: " ++ toString retval
            ++ ", stdout: " ++ squote ++ stdoutS ++ squote
            ++ ", stderr: " ++ squote ++ stderrS ++ squote)])

/-! ## Concrete environments used by witnesses and counterexamples -/

/-- A directory stat result (mode `0o40755`) with the extra paramiko
fields populated. -/
def pa1 : ParamikoAttrs :=
  { st_size := 1024, st_uid := 1000, st_gid := 100, st_mode := 16877,
    st_atime := 111, st_mtime := 222, filename := "f", longname := "lf" }

/-- A benign oracle environment: every primitive succeeds, the remote
command exits with status `0` and empty streams. -/
def env0 : Env :=
  { sftpChdir := fun _ p => Except.ok p,
    sftpStatDot := fun _ => Except.ok (),
    sftpStat := fun _ _ => Except.ok pa1,
    sftpLstat := fun _ _ => Except.ok pa1,
    sftpNormalize := fun _ p => Except.ok p,
    sftpMkdir := fun _ _ => Except.ok (),
    sftpRmdir := fun _ _ => Except.ok (),
    sftpRemove := fun _ _ => Except.ok (),
    sftpListdir := fun _ _ => Except.ok [],
    sftpChmod := fun _ _ _ => Except.ok (),
    sftpPut := fun _ _ _ => Except.ok pa1,
    sftpGet := fun _ _ _ => Except.ok (),
    exitStatus := 0, stdoutData := "", stderrData := "" }

/-- An environment where changing directory succeeds into `/secret`, whose
subsequent `stat(".")` read-permission check fails with `errno == 13`. -/
def env3 : Env :=
  { env0 with
    sftpChdir := fun _ _ => Except.ok "/secret",
    sftpStatDot := fun c =>
      if c = some "/secret" then Except.error (PyErr.ioError (some 13) "Permission denied")
      else Except.ok () }

/-- An environment where the primitive mkdir fails because the target
exists (`errno == 17`). -/
def env5a : Env :=
  { env0 with sftpMkdir := fun _ _ => Except.error (PyErr.ioError (some 17) "File exists") }

/-- An environment where the primitive mkdir fails with permission denied
(`errno == 13`), on a target that does not exist. -/
def env5b : Env :=
  { env0 with sftpMkdir := fun _ _ => Except.error (PyErr.ioError (some 13) "Permission denied") }

/-- An environment whose remote command exits with status `1`, writing
marker strings to both streams. -/
def env8 : Env :=
  { env0 with exitStatus := 1, stdoutData := "OUTMARK", stderrData := "ERRMARK" }

/-! ## Theorems -/

/-- Shape of the interaction trace of every `exec_command_wait` call that
returns a result: the three channel-setup events, one write per stdin line,
then flush, half-close, stdout drain, exit-status fetch and stderr drain. -/
theorem exec_wait_ok_shape (env : Env) (st : TState) (command : String)
    (stdin : StdinArg) (combine_stderr : Bool) (r : Int × String × String)
    (tr : List Event)
    (h : exec_command_wait env st command stdin combine_stderr = (Except.ok r, tr)) :
    ∃ ls, stdinLines stdin = Except.ok ls ∧
      tr = [Event.openSession, Event.setCombineStderr combine_stderr,
            Event.execCommand (composedCommand st command)]
        ++ ls.map Event.stdinWrite
        ++ [Event.stdinFlush, Event.shutdownWrite, Event.readStdout,
            Event.recvExitStatus, Event.readStderr] := by
  cases hopen : st.is_open with
  | false => simp [exec_command_wait, execInternal, hopen] at h
  | true =>
    cases hsl : stdinLines stdin with
    | error e => simp [exec_command_wait, execInternal, hopen, hsl] at h
    | ok ls =>
      refine ⟨ls, rfl, ?_⟩
      have h2 := congrArg Prod.snd h
      simp only [exec_command_wait, execInternal, hopen, hsl, if_true] at h2
      rw [← h2]
      try simp

/-- C1: for every executed command (every `exec_command_wait` call that
returns a result), the trace ends with the stdout stream read to exhaustion,
then the blocking exit-status fetch, then the stderr stream read to
exhaustion; none of the three events occurs earlier, so none is skipped or
reordered. -/
theorem c1_drain_order (env : Env) (st : TState) (command : String)
    (stdin : StdinArg) (combine_stderr : Bool) (r : Int × String × String)
    (tr : List Event)
    (h : exec_command_wait env st command stdin combine_stderr = (Except.ok r, tr)) :
    ∃ pre, tr = pre ++ [Event.readStdout, Event.recvExitStatus, Event.readStderr]
      ∧ Event.readStdout ∉ pre ∧ Event.recvExitStatus ∉ pre
      ∧ Event.readStderr ∉ pre := by
  obtain ⟨ls, _, htr⟩ :=
    exec_wait_ok_shape env st command stdin combine_stderr r tr h
  refine ⟨[Event.openSession, Event.setCombineStderr combine_stderr,
           Event.execCommand (composedCommand st command)]
            ++ ls.map Event.stdinWrite ++ [Event.stdinFlush, Event.shutdownWrite],
          ?_, ?_, ?_, ?_⟩
  · rw [htr]; simp
  · simp [List.mem_append, List.mem_map]
  · simp [List.mem_append, List.mem_map]
  · simp [List.mem_append, List.mem_map]

/-- Witness for C1 at a concrete input. -/
theorem c1_drain_order_witness :
    ∃ pre, (exec_command_wait env0 { is_open := true, cwd := some "/w" } "ls"
              StdinArg.nullArg false).2
        = pre ++ [Event.readStdout, Event.recvExitStatus, Event.readStderr]
      ∧ Event.readStdout ∉ pre ∧ Event.recvExitStatus ∉ pre
      ∧ Event.readStderr ∉ pre :=
  c1_drain_order env0 { is_open := true, cwd := some "/w" } "ls" StdinArg.nullArg false
    (0, "", "")
    ((exec_command_wait env0 { is_open := true, cwd := some "/w" } "ls"
        StdinArg.nullArg false).2) rfl

/-- C10: on every `exec_command_wait` call that returns a result — in
particular when no stdin is supplied — the stdin stream is flushed and its
write side shut down (half-close), immediately before the stdout drain, and
neither event occurred earlier. -/
theorem c10_halfclose_before_drain (env : Env) (st : TState) (command : String)
    (stdin : StdinArg) (combine_stderr : Bool) (r : Int × String × String)
    (tr : List Event)
    (h : exec_command_wait env st command stdin combine_stderr = (Except.ok r, tr)) :
    ∃ pre rest,
      tr = pre ++ [Event.stdinFlush, Event.shutdownWrite, Event.readStdout] ++ rest
      ∧ Event.stdinFlush ∉ pre ∧ Event.shutdownWrite ∉ pre
      ∧ Event.readStdout ∉ pre := by
  obtain ⟨ls, _, htr⟩ :=
    exec_wait_ok_shape env st command stdin combine_stderr r tr h
  refine ⟨[Event.openSession, Event.setCombineStderr combine_stderr,
           Event.execCommand (composedCommand st command)]
            ++ ls.map Event.stdinWrite,
          [Event.recvExitStatus, Event.readStderr], ?_, ?_, ?_, ?_⟩
  · rw [htr]; simp
  · simp [List.mem_append, List.mem_map]
  · simp [List.mem_append, List.mem_map]
  · simp [List.mem_append, List.mem_map]

/-- Witness for C10 at a concrete input with no stdin supplied. -/
theorem c10_halfclose_before_drain_witness :
    ∃ pre rest,
      (exec_command_wait env0 { is_open := true, cwd := some "/w" } "cat"
          StdinArg.nullArg false).2
        = pre ++ [Event.stdinFlush, Event.shutdownWrite, Event.readStdout] ++ rest
      ∧ Event.stdinFlush ∉ pre ∧ Event.shutdownWrite ∉ pre
      ∧ Event.readStdout ∉ pre :=
  c10_halfclose_before_drain env0 { is_open := true, cwd := some "/w" } "cat"
    StdinArg.nullArg false (0, "", "")
    ((exec_command_wait env0 { is_open := true, cwd := some "/w" } "cat"
        StdinArg.nullArg false).2) rfl

/-- C2 counterexample: with the working directory set to `/tmp`, the command
issued for `echo a b` prefixes a `cd` into the shell-escaped directory but
appends the requested command verbatim; the composition the claim states,
with the command shell-escaped as well, is a different string. -/
theorem c2_counterexample :
    (execInternal env0 { is_open := true, cwd := some "/tmp" } "echo a b" false).1
        = Except.ok ("cd " ++ escape_for_bash "/tmp" ++ " && " ++ "echo a b")
      ∧ ("cd " ++ escape_for_bash "/tmp" ++ " && " ++ "echo a b")
          ≠ ("cd " ++ escape_for_bash "/tmp" ++ " && " ++ escape_for_bash "echo a b") := by
  decide

/-- C2 (amended): while the working-directory state holds a path, the command
issued on the channel is `cd <shell-escaped path> && <command>` with only the
path shell-escaped and the command appended verbatim; when the working
directory is unset the command is issued unmodified. -/
theorem c2_amended (env : Env) (st : TState) (command : String)
    (combine_stderr : Bool) (d : String) (h : st.is_open = true) :
    (st.cwd = some d →
       execInternal env st command combine_stderr
         = (Except.ok ("cd " ++ escape_for_bash d ++ " && " ++ command),
            [Event.openSession, Event.setCombineStderr combine_stderr,
             Event.execCommand ("cd " ++ escape_for_bash d ++ " && " ++ command)]))
    ∧ (st.cwd = none →
       execInternal env st command combine_stderr
         = (Except.ok command,
            [Event.openSession, Event.setCombineStderr combine_stderr,
             Event.execCommand command])) := by
  constructor
  · intro hc
    simp [execInternal, composedCommand, h, hc]
  · intro hc
    simp [execInternal, composedCommand, h, hc]

/-- Witness for the amended C2 at a concrete input. -/
theorem c2_amended_witness :
    execInternal env0 { is_open := true, cwd := some "/tmp" } "echo a b" false
      = (Except.ok ("cd " ++ escape_for_bash "/tmp" ++ " && " ++ "echo a b"),
         [Event.openSession, Event.setCombineStderr false,
          Event.execCommand ("cd " ++ escape_for_bash "/tmp" ++ " && " ++ "echo a b")]) :=
  (c2_amended env0 { is_open := true, cwd := some "/tmp" } "echo a b" false "/tmp" rfl).1 rfl

/-- C4 counterexample: with an open transport, a stdin argument that is
neither a string nor file-like makes `exec_command_wait` fail with
`ValueError`, but only after the command channel was opened and the command
issued: the trace of the failing call contains the issue event. -/
theorem c4_counterexample :
    (exec_command_wait env0 { is_open := true, cwd := some "/w" } "cat"
        (StdinArg.objArg none) false).1
      = Except.error (PyErr.valueError
          "stdin can only be either a string of a file-like object!")
    ∧ Event.execCommand (composedCommand { is_open := true, cwd := some "/w" } "cat")
        ∈ (exec_command_wait env0 { is_open := true, cwd := some "/w" } "cat"
            (StdinArg.objArg none) false).2 := by
  decide

/-- C4 (amended): a stdin argument that is neither a string nor a readable
(file-like) stream makes `exec_command_wait` fail with `ValueError`, but only
after the command channel has been opened and the command issued; the failure
happens before the stdin flush and before any stream is drained. -/
theorem c4_amended (env : Env) (st : TState) (command : String)
    (combine_stderr : Bool) (h : st.is_open = true) :
    exec_command_wait env st command (StdinArg.objArg none) combine_stderr
      = (Except.error (PyErr.valueError
            "stdin can only be either a string of a file-like object!"),
         [Event.openSession, Event.setCombineStderr combine_stderr,
          Event.execCommand (composedCommand st command)])
    ∧ Event.stdinFlush
        ∉ (exec_command_wait env st command (StdinArg.objArg none) combine_stderr).2
    ∧ Event.readStdout
        ∉ (exec_command_wait env st command (StdinArg.objArg none) combine_stderr).2 := by
  refine ⟨?_, ?_, ?_⟩ <;>
    simp [exec_command_wait, execInternal, stdinLines, h]

/-- Witness for the amended C4 at a concrete input. -/
theorem c4_amended_witness :
    exec_command_wait env0 { is_open := true, cwd := some "/w" } "cat"
        (StdinArg.objArg none) false
      = (Except.error (PyErr.valueError
            "stdin can only be either a string of a file-like object!"),
         [Event.openSession, Event.setCombineStderr false,
          Event.execCommand (composedCommand { is_open := true, cwd := some "/w" } "cat")])
    ∧ Event.stdinFlush
        ∉ (exec_command_wait env0 { is_open := true, cwd := some "/w" } "cat"
            (StdinArg.objArg none) false).2
    ∧ Event.readStdout
        ∉ (exec_command_wait env0 { is_open := true, cwd := some "/w" } "cat"
            (StdinArg.objArg none) false).2 :=
  c4_amended env0 { is_open := true, cwd := some "/w" } "cat" false rfl

/-- C3 counterexample: from `/home`, changing to a directory whose
read-permission check (`stat(".")`) fails leaves the call raising the
permission error while the working-directory state has already moved to the
new directory: the state after the call differs from the state before. -/
theorem c3_counterexample :
    (chdir env3 { is_open := true, cwd := some "/home" } (some "secret")).2
        = Except.error (PyErr.ioError (some 13) "Permission denied")
      ∧ (chdir env3 { is_open := true, cwd := some "/home" } (some "secret")).1.cwd
          ≠ some "/home" := by
  decide

/-- C3 (amended): the directory-change operation validates that the target is
a directory before committing (a failing primitive chdir leaves the state
unchanged), but commits the new working directory before the read-permission
check: when the subsequent `stat(".")` fails, the error propagates while the
state keeps the new directory — it is not rolled back.  On full success the
state likewise holds the new directory. -/
theorem c3_amended (env : Env) (st : TState) (p newcwd : String) (e : PyErr)
    (h : st.is_open = true) :
    (env.sftpChdir st.cwd p = Except.error e →
       chdir env st (some p) = (st, Except.error e))
    ∧ (env.sftpChdir st.cwd p = Except.ok newcwd →
         env.sftpStatDot (some newcwd) = Except.error e →
         chdir env st (some p) = ({ st with cwd := some newcwd }, Except.error e))
    ∧ (env.sftpChdir st.cwd p = Except.ok newcwd →
         env.sftpStatDot (some newcwd) = Except.ok () →
         chdir env st (some p) = ({ st with cwd := some newcwd }, Except.ok ()))
    ∧ (chdir env st none).1 = st := by
  refine ⟨?_, ?_, ?_, ?_⟩
  · intro hc
    simp [chdir, h, hc]
  · intro hc hs
    simp [chdir, h, hc, hs]
  · intro hc hs
    simp [chdir, h, hc, hs]
  · cases hs : env.sftpStatDot st.cwd <;> simp [chdir, h, hs]

/-- Witness for the amended C3 at a concrete input: the read-permission
check fails after the commit. -/
theorem c3_amended_witness :
    chdir env3 { is_open := true, cwd := some "/home" } (some "secret")
      = ({ is_open := true, cwd := some "/secret" },
         Except.error (PyErr.ioError (some 13) "Permission denied")) :=
  (c3_amended env3 { is_open := true, cwd := some "/home" } "secret" "/secret"
      (PyErr.ioError (some 13) "Permission denied") rfl).2.1 rfl rfl

/-- C5 counterexample: a primitive mkdir failure on an existing target and a
permission-denied primitive failure on a fresh target both surface as the
same `OSError` carrying only the primitive message — the operation does not
distinguish the already-exists case from other primitive failures. -/
theorem c5_counterexample :
    mkdir env5a { is_open := true, cwd := none } "d"
        = Except.error (PyErr.osError "File exists")
      ∧ mkdir env5b { is_open := true, cwd := none } "d"
          = Except.error (PyErr.osError "Permission denied") := by
  decide

/-- C5 (amended): `mkdir` rewraps every primitive `IOError` — whether the
target already exists or the failure has any other cause — as `OSError`
carrying the primitive message; the two failure kinds are not distinguishable
by the error type.  On primitive success the operation succeeds. -/
theorem c5_amended (env : Env) (st : TState) (path msg : String) (n : Option Int)
    (h : st.is_open = true) :
    (env.sftpMkdir st.cwd path = Except.error (PyErr.ioError n msg) →
       mkdir env st path = Except.error (PyErr.osError msg))
    ∧ (env.sftpMkdir st.cwd path = Except.ok () →
         mkdir env st path = Except.ok ()) := by
  constructor
  · intro hm
    simp [mkdir, h, hm]
  · intro hm
    simp [mkdir, h, hm]

/-- Witness for the amended C5 at a concrete input. -/
theorem c5_amended_witness :
    mkdir env5b { is_open := true, cwd := none } "d"
      = Except.error (PyErr.osError "Permission denied") :=
  (c5_amended env5b { is_open := true, cwd := none } "d" "Permission denied"
      (some 13) rfl).1 rfl

/-- C6 counterexample: on a transport that was never opened, `isdir` with the
empty path returns `False` instead of raising `TransportInternalError`, and
`chmod` with the empty path raises the empty-argument `IOError` instead. -/
theorem c6_counterexample :
    isdir env0 { is_open := false, cwd := none } "" = Except.ok false
      ∧ chmod env0 { is_open := false, cwd := none } "" 7
          = Except.error (PyErr.ioError none "Input path is an empty argument.") := by
  decide

/-- C6 (amended): on a session that is not open, every filesystem operation
and every command execution raises `TransportInternalError` before any
channel operation — except the operations whose argument validation precedes
the guard: `isdir`/`isfile` return `False` on the empty path, `chmod` raises
`IOError` on the empty path, `put`/`get` raise `ValueError` on a non-absolute
local path, and `copy` raises `ValueError` on an empty source or destination.
In every case the result is independent of the primitive oracles (the
environment is universally quantified), so no channel operation is performed. -/
theorem c6_amended (env : Env) (st : TState) (h : st.is_open = false)
    (p lp rp : String) (m : Int) (osp : Option String) (stdin : StdinArg)
    (b : Bool) :
    normalize env st p = Except.error sftpGuardErr
    ∧ getcwd st = Except.error sftpGuardErr
    ∧ mkdir env st p = Except.error sftpGuardErr
    ∧ rmdir env st p = Except.error sftpGuardErr
    ∧ remove env st p = Except.error sftpGuardErr
    ∧ listdir env st p = Except.error sftpGuardErr
    ∧ get_attribute env st p = Except.error sftpGuardErr
    ∧ chdir env st osp = (st, Except.error sftpGuardErr)
    ∧ isdir env st p = (if p = "" then Except.ok false else Except.error sftpGuardErr)
    ∧ isfile env st p = (if p = "" then Except.ok false else Except.error sftpGuardErr)
    ∧ chmod env st p m
        = (if p = "" then Except.error (PyErr.ioError none "Input path is an empty argument.")
           else Except.error sftpGuardErr)
    ∧ put env st lp rp
        = (if pyIsAbs lp then Except.error sftpGuardErr
           else Except.error (PyErr.valueError "The localpath must be an absolute path"))
    ∧ get env st rp lp
        = (if pyIsAbs lp then Except.error sftpGuardErr
           else Except.error (PyErr.valueError "The localpath must be an absolute path"))
    ∧ (copy env st p rp b).1
        = (if p = "" then
             Except.error (PyErr.valueError
               ("Input to copy() must be a non empty string. Found instead "
                 ++ p ++ " as remotesource"))
           else if rp = "" then
             Except.error (PyErr.valueError
               ("Input to copy() must be a non empty string. Found instead "
                 ++ rp ++ " as remotedestination"))
           else Except.error sshGuardErr)
    ∧ execInternal env st p b = (Except.error sshGuardErr, [])
    ∧ exec_command_wait env st p stdin b = (Except.error sshGuardErr, []) := by
  refine ⟨?_, ?_, ?_, ?_, ?_, ?_, ?_, ?_, ?_, ?_, ?_, ?_, ?_, ?_, ?_, ?_⟩
  · simp [normalize, h]
  · simp [getcwd, h]
  · simp [mkdir, h]
  · simp [rmdir, h]
  · simp [remove, h]
  · simp [listdir, h]
  · simp [get_attribute, h]
  · cases osp <;> simp [chdir, h]
  · by_cases hp : p = "" <;> simp [isdir, h, hp]
  · by_cases hp : p = "" <;> simp [isfile, h, hp]
  · by_cases hp : p = "" <;> simp [chmod, h, hp]
  · by_cases hl : pyIsAbs lp <;> simp [put, h, hl]
  · by_cases hl : pyIsAbs lp <;> simp [get, h, hl]
  · by_cases hp : p = ""
    · simp [copy, hp]
    · by_cases hr : rp = "" <;>
        simp [copy, hp, hr, exec_command_wait, execInternal, h]
  · simp [execInternal, h]
  · simp [exec_command_wait, execInternal, h]

/-- Witness for the amended C6 at a concrete closed session. -/
theorem c6_amended_witness :
    normalize env0 { is_open := false, cwd := none } "x" = Except.error sftpGuardErr
    ∧ getcwd { is_open := false, cwd := none } = Except.error sftpGuardErr
    ∧ mkdir env0 { is_open := false, cwd := none } "x" = Except.error sftpGuardErr
    ∧ rmdir env0 { is_open := false, cwd := none } "x" = Except.error sftpGuardErr
    ∧ remove env0 { is_open := false, cwd := none } "x" = Except.error sftpGuardErr
    ∧ listdir env0 { is_open := false, cwd := none } "x" = Except.error sftpGuardErr
    ∧ get_attribute env0 { is_open := false, cwd := none } "x"
        = Except.error sftpGuardErr
    ∧ chdir env0 { is_open := false, cwd := none } none
        = ({ is_open := false, cwd := none }, Except.error sftpGuardErr)
    ∧ isdir env0 { is_open := false, cwd := none } "x"
        = (if "x" = "" then Except.ok false else Except.error sftpGuardErr)
    ∧ isfile env0 { is_open := false, cwd := none } "x"
        = (if "x" = "" then Except.ok false else Except.error sftpGuardErr)
    ∧ chmod env0 { is_open := false, cwd := none } "x" 7
        = (if "x" = ""
           then Except.error (PyErr.ioError none "Input path is an empty argument.")
           else Except.error sftpGuardErr)
    ∧ put env0 { is_open := false, cwd := none } "/a" "b"
        = (if pyIsAbs "/a" then Except.error sftpGuardErr
           else Except.error (PyErr.valueError "The localpath must be an absolute path"))
    ∧ get env0 { is_open := false, cwd := none } "b" "/a"
        = (if pyIsAbs "/a" then Except.error sftpGuardErr
           else Except.error (PyErr.valueError "The localpath must be an absolute path"))
    ∧ (copy env0 { is_open := false, cwd := none } "x" "b" false).1
        = (if "x" = "" then
             Except.error (PyErr.valueError
               ("Input to copy() must be a non empty string. Found instead "
                 ++ "x" ++ " as remotesource"))
           else if "b" = "" then
             Except.error (PyErr.valueError
               ("Input to copy() must be a non empty string. Found instead "
                 ++ "b" ++ " as remotedestination"))
           else Except.error sshGuardErr)
    ∧ execInternal env0 { is_open := false, cwd := none } "x" false
        = (Except.error sshGuardErr, [])
    ∧ exec_command_wait env0 { is_open := false, cwd := none } "x"
        StdinArg.nullArg false = (Except.error sshGuardErr, []) :=
  c6_amended env0 { is_open := false, cwd := none } rfl "x" "/a" "b" 7 none
    StdinArg.nullArg false

/-- C7: `isdir` and `isfile` return `False` immediately on the empty path,
for every oracle environment (so without making any remote request); on a
non-empty path with an open session they stat the path, map a primitive
failure with `errno == 2` (path does not exist) to `False`, and re-raise any
other failure (for `isfile`, once the debug-log `normalize` succeeded). -/
theorem c7_existence_checks (env : Env) (st : TState) (path : String)
    (a : ParamikoAttrs) (e : PyErr) (n : String) :
    isdir env st "" = Except.ok false
    ∧ isfile env st "" = Except.ok false
    ∧ (path ≠ "" → st.is_open = true →
        (env.sftpStat st.cwd path = Except.ok a →
           isdir env st path = Except.ok (s_ISDIR a.st_mode))
        ∧ (env.sftpStat st.cwd path = Except.error e → pyErrno e = some 2 →
             isdir env st path = Except.ok false)
        ∧ (env.sftpStat st.cwd path = Except.error e → pyErrno e ≠ some 2 →
             isdir env st path = Except.error e)
        ∧ (env.sftpNormalize st.cwd path = Except.ok n →
             (env.sftpStat st.cwd path = Except.ok a →
                isfile env st path = Except.ok (s_ISREG a.st_mode))
             ∧ (env.sftpStat st.cwd path = Except.error e → pyErrno e = some 2 →
                  isfile env st path = Except.ok false)
             ∧ (env.sftpStat st.cwd path = Except.error e → pyErrno e ≠ some 2 →
                  isfile env st path = Except.error e))) := by
  refine ⟨by simp [isdir], by simp [isfile], ?_⟩
  intro hp hopen
  refine ⟨?_, ?_, ?_, ?_⟩
  · intro hs
    simp [isdir, hp, hopen, hs]
  · intro hs herr
    simp [isdir, hp, hopen, hs, herr]
  · intro hs herr
    simp [isdir, hp, hopen, hs, herr]
  · intro hn
    refine ⟨?_, ?_, ?_⟩
    · intro hs
      simp [isfile, isfileDebugAndStat, hp, hopen, hn, hs]
    · intro hs herr
      simp [isfile, isfileDebugAndStat, hp, hopen, hn, hs, herr]
    · intro hs herr
      simp [isfile, isfileDebugAndStat, hp, hopen, hn, hs, herr]

/-- Witness for C7 at a concrete input: in `env0` every stat succeeds with
the directory attributes `pa1`, so `isdir` reports its mode bits. -/
theorem c7_existence_checks_witness :
    isdir env0 { is_open := true, cwd := none } "p"
      = Except.ok (s_ISDIR pa1.st_mode) :=
  ((c7_existence_checks env0 { is_open := true, cwd := none } "p" pa1
      (PyErr.ioError (some 13) "x") "p").2.2 (by decide) rfl).1 rfl

/-- C8 counterexample: a remote copy exiting with status `1` raises an
`IOError` whose message carries the exit code only — the marker strings that
the command wrote to stdout and stderr do not occur in the raised failure
(they are only written to the error log). -/
theorem c8_counterexample :
    (copy env8 { is_open := true, cwd := some "/w" } "a" "b" false).1
        = Except.error (PyErr.ioError none "Error while executing cp. Exit code: 1")
      ∧ strContains "Error while executing cp. Exit code: 1" "OUTMARK" = false
      ∧ strContains "Error while executing cp. Exit code: 1" "ERRMARK" = false := by
  decide

/-- C8 (amended): `copy` fails with `IOError` exactly when the remote copy
command exits with a non-zero code; the raised failure carries the exit code
in its message, while the captured stdout and stderr are written to the error
log, not attached to the raised failure.  On a zero exit code the operation
succeeds even when stderr is non-empty, which is only a logged warning. -/
theorem c8_amended (env : Env) (st : TState) (src dst : String) (deref : Bool)
    (h : st.is_open = true) (hs : src ≠ "") (hd : dst ≠ "") :
    (env.exitStatus ≠ 0 →
       copy env st src dst deref
         = (Except.error (PyErr.ioError none
              ("Error while executing cp. Exit code: " ++ toString env.exitStatus)),
            [LogMsg.errorLog ("Problem executing cp. Exit code: "
               ++ toString env.exitStatus
               ++ ", stdout: " ++ squote ++ env.stdoutData ++ squote
               ++ ", stderr: " ++ squote ++ env.stderrData ++ squote)]))
    ∧ (env.exitStatus = 0 →
         (pyStrip env.stderrData = "" →
            copy env st src dst deref = (Except.ok true, []))
         ∧ (pyStrip env.stderrData ≠ "" →
              copy env st src dst deref
                = (Except.ok true,
                   [LogMsg.warnLog ("There was nonempty stderr in the cp command: "
                      ++ env.stderrData)]))) := by
  constructor
  · intro hnz
    simp [copy, hs, hd, exec_command_wait, execInternal, stdinLines, h, hnz]
  · intro hz
    constructor
    · intro hemp
      simp [copy, hs, hd, exec_command_wait, execInternal, stdinLines, h, hz, hemp]
    · intro hne
      simp [copy, hs, hd, exec_command_wait, execInternal, stdinLines, h, hz, hne]

/-- Witness for the amended C8 at a concrete input with a non-zero exit
status. -/
theorem c8_amended_witness :
    copy env8 { is_open := true, cwd := some "/w" } "a" "b" false
      = (Except.error (PyErr.ioError none
           ("Error while executing cp. Exit code: " ++ toString env8.exitStatus)),
         [LogMsg.errorLog ("Problem executing cp. Exit code: "
            ++ toString env8.exitStatus
            ++ ", stdout: " ++ squote ++ env8.stdoutData ++ squote
            ++ ", stderr: " ++ squote ++ env8.stderrData ++ squote)]) :=
  (c8_amended env8 { is_open := true, cwd := some "/w" } "a" "b" false rfl
      (by decide) (by decide)).1 (by decide)

/-- C9: `get_attribute` on a successful primitive lstat returns the
fixed-fields record holding exactly the six recognized attributes, each
copied from the richer paramiko result; reading any of the six yields the
copied value, and reading or assigning any name outside the six is an error
on the returned record (the extra primitive fields are ignored). -/
theorem c9_fixed_fields (env : Env) (st : TState) (path : String)
    (pa : ParamikoAttrs) (k : String) (v : Int)
    (h : st.is_open = true) (hl : env.sftpLstat st.cwd path = Except.ok pa) :
    get_attribute env st path = Except.ok (mkFileAttr pa)
    ∧ fdGet (mkFileAttr pa) "st_size" = Except.ok pa.st_size
    ∧ fdGet (mkFileAttr pa) "st_uid" = Except.ok pa.st_uid
    ∧ fdGet (mkFileAttr pa) "st_gid" = Except.ok pa.st_gid
    ∧ fdGet (mkFileAttr pa) "st_mode" = Except.ok pa.st_mode
    ∧ fdGet (mkFileAttr pa) "st_atime" = Except.ok pa.st_atime
    ∧ fdGet (mkFileAttr pa) "st_mtime" = Except.ok pa.st_mtime
    ∧ (file_attribute_fields.contains k = false →
         fdGet (mkFileAttr pa) k
             = Except.error (PyErr.valueError ("Unknown field " ++ k))
         ∧ fdSet (mkFileAttr pa) k v
             = Except.error (PyErr.valueError ("Unknown field " ++ k))) := by
  refine ⟨?_, rfl, rfl, rfl, rfl, rfl, rfl, ?_⟩
  · simp only [get_attribute, h, hl, if_true]
    rfl
  · intro hk
    have hk2 : k ∉ file_attribute_fields := by
      simpa using hk
    constructor
    · simp [fdGet, mkFileAttr, hk2]
    · simp [fdSet, mkFileAttr, hk2]

/-- Witness for C9 at a concrete input: the extra paramiko field name
`filename` is rejected by the returned record. -/
theorem c9_fixed_fields_witness :
    get_attribute env0 { is_open := true, cwd := none } "f"
        = Except.ok (mkFileAttr pa1)
      ∧ fdGet (mkFileAttr pa1) "filename"
          = Except.error (PyErr.valueError ("Unknown field " ++ "filename")) :=
  ⟨(c9_fixed_fields env0 { is_open := true, cwd := none } "f" pa1 "filename" 0
      rfl rfl).1,
   ((c9_fixed_fields env0 { is_open := true, cwd := none } "f" pa1 "filename" 0
      rfl rfl).2.2.2.2.2.2.2 (by decide)).1⟩

end AidaSsh
